import Mathlib

set_option maxRecDepth 4000

/-!
Verification development for the attendance repository.

The embedding below translates, from the TypeScript sources, the pieces of the
attendance system that carry decision logic: the face-descriptor matcher and
attendance recorder in src/src/services/face-recognition/RecognitionService.ts,
the markAbsentees operation of the attendance edge function, the
send-notification edge function, the client notification services, and the
absentee computation of src/src/components/admin/AbsenteeNotifier.tsx.

Modelling conventions:
- Floating point numbers are modelled as rationals.
- Timestamps are modelled by the calendar date they fall on, because every
  query in the modelled code filters timestamps by whole-day ranges
  (gte dateT00:00:00, lte dateT23:59:59) and the records the code writes
  carry timestamps inside the day they are written on.
- Database reads and writes that can fail, and transports that can fail or
  throw, are modelled by explicit Boolean or outcome parameters; a thrown
  JavaScript Error is an Except.error value.
-/

/-- Metadata bag stored inside the device_info column of attendance_records,
as read by the modelled code: an optional display name and an optional face
descriptor (kept here in decoded numeric form). -/
structure RecordMetadata where
  name : Option String
  faceDescriptor : Option (List ℚ)
  deriving DecidableEq

/-- The device_info column: a registration flag (the code probes it with a
containment query for registration true) and the optional metadata bag. -/
structure DeviceInfo where
  registration : Bool
  metadata : Option RecordMetadata
  deriving DecidableEq

/-- A row of the attendance_records table, at the granularity the modelled
queries observe: nullable user id, status string, the calendar date of the
timestamp, optional confidence score, optional device_info. -/
structure AttendanceRecord where
  user_id : Option String
  status : String
  date : String
  confidence_score : Option ℚ
  device_info : Option DeviceInfo
  deriving DecidableEq

/-- JavaScript truthiness of a nullable string: null, undefined and the empty
string are falsy. -/
def jsTruthy : Option String → Bool
  | none => false
  | some s => s != ""

/-- Reads device_info.metadata.name with JavaScript truthiness and falls back
to a default, as the markAbsentees edge operation and the AbsenteeNotifier
component both do with the pattern metadata.name or default. -/
def nameOrDefault (di : Option DeviceInfo) (dflt : String) : String :=
  match di with
  | some info =>
    match info.metadata with
    | some m =>
      match m.name with
      | some n => if n = "" then dflt else n
      | none => dflt
    | none => dflt
  | none => dflt

/-- Whether a device_info value carries the registration flag, as tested by
the containment queries contains device_info registration true. -/
def registrationFlag : Option DeviceInfo → Bool
  | some info => info.registration
  | none => false

/-- The display name actually stored in a record, without defaulting. -/
def storedName (r : AttendanceRecord) : Option String :=
  match r.device_info with
  | some info =>
    match info.metadata with
    | some m => m.name
    | none => none
  | none => none

/-! ## markAbsentees (attendance edge function) -/

/-- Status test used by the markAbsentees day query: status in
present, late, absent. -/
def isPresentish (s : String) : Bool :=
  s == "present" || s == "late" || s == "absent"

/-- The user ids returned by the markAbsentees day query: records whose
timestamp falls on the date and whose status is present, late or absent. -/
def presentIdsFor (date : String) (store : List AttendanceRecord) : List (Option String) :=
  (store.filter (fun r => r.date == date && isPresentish r.status)).map (fun r => r.user_id)

/-- The records returned by the registered query of markAbsentees: every
record with status registered. -/
def registeredRecords (store : List AttendanceRecord) : List AttendanceRecord :=
  store.filter (fun r => r.status == "registered")

/-- The absence record markAbsentees builds for one registered student:
status absent, timestamp on the target date, and a system device_info whose
metadata carries the display name extracted from the registration record,
defaulting to the string Unknown Student. -/
def absenteeRecord (date : String) (r : AttendanceRecord) : AttendanceRecord :=
  { user_id := r.user_id
    status := "absent"
    date := date
    confidence_score := none
    device_info := some
      { registration := false
        metadata := some
          { name := some (nameOrDefault r.device_info "Unknown Student")
            faceDescriptor := none } } }

/-- The list of absence records the markAbsentees loop accumulates: one for
every registered record whose user id is not among the day ids. -/
def absenteeComputation (date : String) (store : List AttendanceRecord) : List AttendanceRecord :=
  ((registeredRecords store).filter
    (fun r => !(decide (r.user_id ∈ presentIdsFor date store)))).map (absenteeRecord date)

/-- The markAbsentees operation of the attendance edge function: computes the
not-yet-marked absentees, inserts one absent record for each, and returns the
inserted count together with the resulting store. -/
def markAbsentees (date : String) (store : List AttendanceRecord) : Nat × List AttendanceRecord :=
  let absenteeRecords := absenteeComputation date store
  (absenteeRecords.length, store ++ absenteeRecords)

/-! ## fetchAbsentStudents (AbsenteeNotifier component) -/

/-- The user ids the AbsenteeNotifier subtracts: only records with status
present on the selected date. -/
def presentOnlyIds (date : String) (store : List AttendanceRecord) : List (Option String) :=
  (store.filter (fun r => r.status == "present" && r.date == date)).map (fun r => r.user_id)

/-- fetchAbsentStudents from AbsenteeNotifier.tsx: starts from the records
whose device_info carries registration true, pairs each with its metadata name
defaulting to Unknown, and keeps those whose user id has no present event on
the date. -/
def fetchAbsentStudents (date : String) (store : List AttendanceRecord) :
    List (Option String × String) :=
  let students := (store.filter (fun r => registrationFlag r.device_info)).map
    (fun r => (r.user_id, nameOrDefault r.device_info "Unknown"))
  students.filter (fun s => !(decide (s.1 ∈ presentOnlyIds date store)))

/-! ## Claim-side absentee sets, modelled from the claim wording -/

/-- Membership in the set R of the claim wording: user ids having a
registered record. -/
def inRegisteredSet (store : List AttendanceRecord) (u : Option String) : Prop :=
  ∃ r ∈ store, r.status = "registered" ∧ r.user_id = u

/-- Membership in the set P of the claim wording: user ids having any event
with status present, late or absent on the date. -/
def inPresentSet (date : String) (store : List AttendanceRecord) (u : Option String) : Prop :=
  ∃ r ∈ store, r.date = date ∧
    (r.status = "present" ∨ r.status = "late" ∨ r.status = "absent") ∧ r.user_id = u

instance (store : List AttendanceRecord) (u : Option String) :
    Decidable (inRegisteredSet store u) := by
  unfold inRegisteredSet; infer_instance

instance (date : String) (store : List AttendanceRecord) (u : Option String) :
    Decidable (inPresentSet date store u) := by
  unfold inPresentSet; infer_instance

/-! ## The send-notification edge function (dispatch path) -/

/-- The recipient object of the notification payload: optional email address
and optional phone number. -/
structure Recipient where
  email : Option String
  phone : Option String
  deriving DecidableEq

/-- The notification_logs row for one dispatch, as the edge function mutates
it: created with status processing, per-channel statuses and error details
filled as channels complete, then a final status and a completion timestamp
(modelled by the completed_at flag). -/
structure NotificationLogEntry where
  status : String
  email_status : Option String
  sms_status : Option String
  error_details : Option String
  completed_at : Bool
  deriving DecidableEq

/-- Observable outcome of one run of the send-notification edge function:
the final log row, the two booleans of the JSON response, and the transport
calls that were attempted (addresses passed to the SMTP client, numbers
passed to the mock SMS sender). -/
structure HandlerOutcome where
  log : NotificationLogEntry
  email_sent : Bool
  sms_sent : Bool
  emailAttempts : List String
  smsAttempts : List String
  deriving DecidableEq

/-- The dispatch path of the send-notification edge function (first handler in
the unnamed edge sources): insert a processing log row; if the recipient has an
email address, attempt SMTP delivery, marking email_status sent on success and
failed with error details on a caught throw (emailTransportOk models that
outcome); if the recipient has a phone number, run the mock SMS sender, which
always succeeds; finally set status to sent when at least one channel
succeeded, otherwise failed, and stamp the completion timestamp. -/
def sendNotificationHandler (recipient : Recipient) (emailTransportOk : Bool) : HandlerOutcome :=
  let log0 : NotificationLogEntry :=
    { status := "processing", email_status := none, sms_status := none
      error_details := none, completed_at := false }
  let emailStep :=
    if jsTruthy recipient.email then
      if emailTransportOk then
        (true, { log0 with email_status := some "sent" }, [recipient.email.getD ""])
      else
        (false,
         { log0 with email_status := some "failed", error_details := some "email error" },
         [recipient.email.getD ""])
    else (false, log0, ([] : List String))
  let emailSent := emailStep.1
  let log1 := emailStep.2.1
  let smsStep :=
    if jsTruthy recipient.phone then
      (true, { log1 with sms_status := some "sent" }, [recipient.phone.getD ""])
    else (false, log1, ([] : List String))
  let smsSent := smsStep.1
  let log2 := smsStep.2.1
  { log := { log2 with
      status := if emailSent || smsSent then "sent" else "failed"
      completed_at := true }
    email_sent := emailSent
    sms_sent := smsSent
    emailAttempts := emailStep.2.2
    smsAttempts := smsStep.2.2 }

/-! ## Client notification senders -/

/-- Channel preferences of a parent contact in the parent_contacts variant
used by the unnamed client notification source. -/
structure NotificationPreferences where
  email : Bool
  sms : Bool
  deriving DecidableEq

/-- A parent contact row as read by the unnamed client notification source:
nullable email and phone, plus Boolean channel preferences. -/
structure ParentContact where
  student_id : String
  name : String
  email : Option String
  phone : Option String
  notification_preferences : NotificationPreferences
  deriving DecidableEq

/-- Payload construction in the unnamed client sendAbsenceNotification: each
channel field of the recipient is the stored value when the matching
preference is enabled, and undefined otherwise. -/
def buildRecipient (contact : ParentContact) : Recipient :=
  { email := if contact.notification_preferences.email then contact.email else none
    phone := if contact.notification_preferences.sms then contact.phone else none }

/-- Composition of the unnamed client sendAbsenceNotification with the
send-notification edge function: build the preference-filtered recipient and
dispatch it. -/
def notifyViaEdge (contact : ParentContact) (emailTransportOk : Bool) : HandlerOutcome :=
  sendNotificationHandler (buildRecipient contact) emailTransportOk

/-- A parent contact row as read by
src/src/services/notification/NotificationService.ts: a single
notification_preference enum instead of per-channel booleans. -/
structure NSParentContact where
  id : String
  student_id : String
  parent_name : String
  email : Option String
  phone : Option String
  notification_preference : String
  deriving DecidableEq

/-- The notification_logs row inserted by NotificationService.ts, with the
sent_at timestamp modelled by a stamped flag. -/
structure NSLogEntry where
  parent_contact_id : String
  student_id : String
  notification_type : String
  status : String
  sent_at_stamped : Bool
  deriving DecidableEq

/-- Observable outcome of NotificationService.sendAbsenceNotification: the
returned Boolean, the inserted log row if any, and the transport invocations
that were attempted, each paired with its success. -/
structure NSOutcome where
  result : Bool
  log : Option NSLogEntry
  emailAttempts : List (String × Bool)
  smsAttempts : List (String × Bool)
  deriving DecidableEq

/-- sendAbsenceNotification from
src/src/services/notification/NotificationService.ts: look up the parent
contact (none models a failed or empty read); when found, invoke the email
helper if the preference is email or both and an email address is present,
invoke the sms helper if the preference is sms or both and a phone number is
present, ignore both helper results, and insert one notification_logs row
with notification_type absence, status sent and a sent_at timestamp,
returning true. The Bool arguments model the success of the two helper
invocations. -/
def sendAbsenceNotificationNS (studentId : String) (contact : Option NSParentContact)
    (emailInvokeOk smsInvokeOk : Bool) : NSOutcome :=
  match contact with
  | none => { result := false, log := none, emailAttempts := [], smsAttempts := [] }
  | some pc =>
    let emailAttempts :=
      if pc.notification_preference == "email" || pc.notification_preference == "both" then
        if jsTruthy pc.email then [(pc.email.getD "", emailInvokeOk)] else []
      else []
    let smsAttempts :=
      if pc.notification_preference == "sms" || pc.notification_preference == "both" then
        if jsTruthy pc.phone then [(pc.phone.getD "", smsInvokeOk)] else []
      else []
    { result := true
      log := some
        { parent_contact_id := pc.id
          student_id := studentId
          notification_type := "absence"
          status := "sent"
          sent_at_stamped := true }
      emailAttempts := emailAttempts
      smsAttempts := smsAttempts }

/-! ## recordAttendance (RecognitionService.ts) -/

/-- Lateness test inside recordAttendance: the source reads getHours and
getMinutes from the wall clock and computes
hour greater than 9, or hour equal to 9 and minutes greater than 30.
The seconds field of the clock is never read. -/
def isLate (hour minutes : Nat) : Bool :=
  decide (hour > 9) || (hour == 9 && decide (minutes > 30))

/-- The lateness classification of a full wall-clock time of recording, as
the code computes it: only the hour and minute fields are consulted. -/
def isLateAt (hour minutes _seconds : Nat) : Bool :=
  isLate hour minutes

/-- Modelled from the claim wording: late exactly when the wall-clock time of
recording, including seconds, is strictly after the 09:30:00 cutoff. -/
def lateSpecAt (hour minutes seconds : Nat) : Bool :=
  decide (3600 * hour + 60 * minutes + seconds > 3600 * 9 + 60 * 30)

/-- The caller-supplied arguments of recordAttendance. -/
structure RecordInput where
  userId : String
  status : String
  confidenceScore : ℚ
  deriving DecidableEq

/-- Outcome of the best-effort late notification: the inner call either threw
(the catch logs and continues) or returned a Boolean. -/
inductive NotifyOutcome where
  | threw (msg : String)
  | returned (ok : Bool)
  deriving DecidableEq

/-- Behaviour of the external collaborators during one recordAttendance call:
whether the dedup read succeeds, whether the insert succeeds, whether the
registration lookup read succeeds, and the outcome of the notification call. -/
structure StoreBehavior where
  checkReadOk : Bool
  insertOk : Bool
  regReadOk : Bool
  notifyOutcome : NotifyOutcome
  deriving DecidableEq

/-- The rows matched by the dedup query of recordAttendance: same user id,
same status, timestamp within the current calendar day. -/
def dedupMatches (store : List AttendanceRecord) (userId status today : String) :
    List AttendanceRecord :=
  store.filter (fun r => r.user_id == some userId && r.status == status && r.date == today)

/-- The rows matched by the registration lookup of recordAttendance: same
user id and device_info containing registration true. -/
def registrationMatches (store : List AttendanceRecord) (userId : String) :
    List AttendanceRecord :=
  store.filter (fun r => r.user_id == some userId && registrationFlag r.device_info)

/-- The row recordAttendance inserts: the given user id and status, a
timestamp of the moment of recording (hence on the current day), the
confidence score, and a device_info with user agent, timestamp and
confidence score but no registration flag and no metadata bag. -/
def newAttendanceRecord (input : RecordInput) (today : String) : AttendanceRecord :=
  { user_id := some input.userId
    status := input.status
    date := today
    confidence_score := some input.confidenceScore
    device_info := some { registration := false, metadata := none } }

/-- Observable outcome of one recordAttendance call: the returned Boolean,
the resulting attendance store, and the notification invocation if one was
made, carrying the student name argument and the outcome. -/
structure RecordOutcome where
  ok : Bool
  store : List AttendanceRecord
  notified : Option (String × NotifyOutcome)
  deriving DecidableEq

/-- The body of recordAttendance (RecognitionService.ts lines 134 to 216)
before its outer catch. The dedup read uses maybeSingle, which raises when
the read fails or more than one row matches; a found row short-circuits with
a true return and no write; a failed insert raises; after a successful insert
of a present event, the registration lookup (also maybeSingle) is consulted,
its errors being ignored, and when it yields exactly one row and the wall
clock is late, the notification is attempted, its throw or failure being
caught and logged. -/
def recordAttendanceBody (input : RecordInput) (today : String) (hour minutes : Nat)
    (behavior : StoreBehavior) (store : List AttendanceRecord) : Except String RecordOutcome :=
  let existing := dedupMatches store input.userId input.status today
  if ¬ behavior.checkReadOk ∨ 1 < existing.length then
    .error "Error checking existing attendance"
  else if ¬ existing.isEmpty then
    .ok { ok := true, store := store, notified := none }
  else if ¬ behavior.insertOk then
    .error "Error recording attendance"
  else
    let store2 := store ++ [newAttendanceRecord input today]
    if input.status == "present" then
      let regs := registrationMatches store2 input.userId
      if behavior.regReadOk && regs.length == 1 then
        let studentName :=
          match regs.head? with
          | some r => nameOrDefault r.device_info "Unknown Student"
          | none => "Unknown Student"
        if isLate hour minutes then
          .ok { ok := true, store := store2
                notified := some (studentName, behavior.notifyOutcome) }
        else
          .ok { ok := true, store := store2, notified := none }
      else
        .ok { ok := true, store := store2, notified := none }
    else
      .ok { ok := true, store := store2, notified := none }

/-- recordAttendance at its public interface: the body wrapped in the outer
catch, which converts every raised error into a false return and leaves the
store as the call found it. -/
def recordAttendance (input : RecordInput) (today : String) (hour minutes : Nat)
    (behavior : StoreBehavior) (store : List AttendanceRecord) : RecordOutcome :=
  match recordAttendanceBody input today hour minutes behavior store with
  | .ok r => r
  | .error _ => { ok := false, store := store, notified := none }

/-! ## The descriptor matcher (recognizeFace and calculateDistance)

calculateDistance throws when the two descriptors have different lengths and
otherwise returns the square root of the sum of squared differences. The only
consumers of the value are order comparisons against the running best
distance, whose initial value is the acceptance threshold 0.6; the square
root is strictly monotone on nonnegative reals, so comparing square roots is
equivalent to comparing the summed squares against squared bounds. The model
therefore carries the squared distance and the squared threshold, which keeps
every comparison, and hence the selection behaviour, identical while staying
inside the rationals. -/

/-- calculateDistance from RecognitionService.ts in squared form: an error
models the thrown dimension mismatch, and the ok value is the sum of squared
componentwise differences (the square of the Euclidean distance the source
returns). -/
def calculateDistanceSq (descriptor1 descriptor2 : List ℚ) : Except String ℚ :=
  if descriptor1.length = descriptor2.length then
    .ok (((descriptor1.zip descriptor2).map (fun p => (p.1 - p.2) * (p.1 - p.2))).sum)
  else
    .error "Face descriptors have different dimensions"

/-- Square of the hard-coded 0.6 initial bestDistance of recognizeFace. -/
def distanceThresholdSq : ℚ := 9 / 25

/-- The stored face descriptor of a candidate record, if any, in decoded
form. A record without a string descriptor is skipped by the loop before any
distance computation. -/
def recordDescriptor (r : AttendanceRecord) : Option (List ℚ) :=
  match r.device_info with
  | some info =>
    match info.metadata with
    | some m => m.faceDescriptor
    | none => none
  | none => none

/-- The distance of one candidate as the recognizeFace loop observes it: none
when the record carries no descriptor, or when calculateDistance throws on a
length mismatch (the surrounding catch then skips the candidate); decode
failures of the stored string are caught by the same catch and are likewise a
skip, so they are subsumed by the descriptor-absent case here. -/
def candDist (query : List ℚ) (r : AttendanceRecord) : Option ℚ :=
  match recordDescriptor r with
  | some desc =>
    match calculateDistanceSq query desc with
    | .ok d => some d
    | .error _ => none
  | none => none

/-- One iteration of the candidate loop of recognizeFace (lines 61 to 83):
when the candidate has an observable distance, it replaces the running best
exactly when that distance is strictly smaller; every failure path inside the
iteration leaves the accumulator untouched. -/
def recognitionStep (query : List ℚ) (acc : Option AttendanceRecord × ℚ)
    (r : AttendanceRecord) : Option AttendanceRecord × ℚ :=
  match candDist query r with
  | some d => if d < acc.2 then (some r, d) else acc
  | none => acc

/-- The whole candidate loop of recognizeFace, started from bestMatch null
and bestDistance 0.6 (here its square). -/
def bestMatchLoop (query : List ℚ) (records : List AttendanceRecord) :
    Option AttendanceRecord × ℚ :=
  records.foldl (recognitionStep query) (none, distanceThresholdSq)

/-- A candidate carrying a descriptor whose length differs from the query. -/
def dimMismatch (query : List ℚ) (r : AttendanceRecord) : Bool :=
  match recordDescriptor r with
  | some desc => query.length != desc.length
  | none => false

/-- The candidates that take part in the comparison, paired with their
observable distances, in loop order. -/
def validPairs (query : List ℚ) (records : List AttendanceRecord) :
    List (AttendanceRecord × ℚ) :=
  records.filterMap (fun r => (candDist query r).map (fun d => (r, d)))

/-- The comparison step on an already-paired candidate. -/
def pairStep (acc : Option AttendanceRecord × ℚ) (p : AttendanceRecord × ℚ) :
    Option AttendanceRecord × ℚ :=
  if p.2 < acc.2 then (some p.1, p.2) else acc

/-- Modelled from the claim wording: the selected candidate is the first-seen
candidate attaining the minimum observable distance, provided some candidate
beats the threshold; otherwise there is no match. -/
def specBestMatch (query : List ℚ) (records : List AttendanceRecord) (threshold : ℚ) :
    Option AttendanceRecord :=
  let pairs := validPairs query records
  let dists := pairs.map Prod.snd
  if dists.any (fun d => decide (d < threshold)) then
    (pairs.find? (fun p => decide (p.2 = dists.foldl min threshold))).map Prod.fst
  else none

/-! ## Concrete inputs used by counterexamples and witnesses -/

/-- A registration record for user u1 carrying a display name. -/
def regAlice : AttendanceRecord :=
  { user_id := some "u1"
    status := "registered"
    date := "2026-10-09"
    confidence_score := none
    device_info := some
      { registration := true
        metadata := some { name := some "Alice", faceDescriptor := none } } }

/-- A late event for user u1 on 2026-10-10. -/
def lateU1 : AttendanceRecord :=
  { user_id := some "u1", status := "late", date := "2026-10-10",
    confidence_score := none, device_info := none }

/-- A registration record for user u2 with no metadata bag. -/
def regNoName : AttendanceRecord :=
  { user_id := some "u2"
    status := "registered"
    date := "2026-10-09"
    confidence_score := none
    device_info := some { registration := true, metadata := none } }

/-- Store with a registered user who has a late event on the target date and
a registered user with no name metadata and no events. -/
def c2store : List AttendanceRecord := [regAlice, lateU1, regNoName]

/-- Collaborator behaviour where every store operation succeeds and the
notification returns true. -/
def allOkBehavior : StoreBehavior :=
  { checkReadOk := true, insertOk := true, regReadOk := true,
    notifyOutcome := .returned true }

/-- Collaborator behaviour where store operations succeed but the
notification call throws. -/
def notifyThrowBehavior : StoreBehavior :=
  { checkReadOk := true, insertOk := true, regReadOk := true,
    notifyOutcome := .threw "notification transport down" }

/-- Collaborator behaviour where the insert fails. -/
def insertFailBehavior : StoreBehavior :=
  { checkReadOk := true, insertOk := false, regReadOk := true,
    notifyOutcome := .returned true }

/-- A present recording input for user u1. -/
def presentInputU1 : RecordInput :=
  { userId := "u1", status := "present", confidenceScore := 1 / 2 }

/-- A parent contact with email and sms both enabled but with failing email
transport in the scenario of the seventh claim. -/
def c7contact : NSParentContact :=
  { id := "pc1", student_id := "s1", parent_name := "Pat",
    email := some "parent@example.test", phone := none,
    notification_preference := "email" }

/-- A parent contact with only the email preference enabled and no phone
number. -/
def c8contact : ParentContact :=
  { student_id := "s1", name := "Parent",
    email := some "parent@example.test", phone := none,
    notification_preferences := { email := true, sms := false } }

/-! # Theorems -/

/-! ## Lateness (claim C1) -/

/-- Claim C1, counterexample: the claim states that recording a present event
at wall-clock 09:30:01 is classified late (half-open interval at the 09:30
cutoff), but the recorder, which reads only the hour and minute fields,
classifies 09:30:01 as not late. -/
theorem c1_counterexample : isLateAt 9 30 1 = false ∧ lateSpecAt 9 30 1 = true := by
  decide

/-- Claim C1, amended: for a wall-clock reading with a valid minute field, a
present event is classified late exactly when the minute of day is strictly
after nine hours and thirty minutes, seconds being ignored: 09:30:00 is not
late, every time up to and including 09:30:59 is not late, and lateness
starts at 09:31:00. -/
theorem c1_amended (hour minutes seconds : Nat) (hm : minutes < 60) :
    isLateAt hour minutes seconds = decide (60 * hour + minutes > 60 * 9 + 30) := by
  unfold isLateAt isLate
  by_cases h1 : 9 < hour
  · have h2 : 60 * 9 + 30 < 60 * hour + minutes := by omega
    simp [h1, h2]
  · by_cases h3 : hour = 9
    · subst h3
      by_cases h4 : 30 < minutes
      · have h5 : 60 * 9 + 30 < 60 * 9 + minutes := by omega
        simp [h1, h4, h5]
      · have h5 : ¬ (60 * 9 + 30 < 60 * 9 + minutes) := by omega
        simp [h1, h4, h5]
    · have h5 : ¬ (60 * 9 + 30 < 60 * hour + minutes) := by omega
      simp [h1, h3, h5]

/-- Claim C1, witness for the amended theorem at the boundary reading
09:30:59, which the recorder classifies as not late. -/
theorem c1_amended_witness :
    (30 : Nat) < 60 ∧ isLateAt 9 30 59 = decide (60 * 9 + 30 > 60 * 9 + 30) :=
  ⟨by decide, c1_amended 9 30 59 (by decide)⟩

/-! ## Absentee computation divergence (claim C2) -/

/-- Claim C2, counterexample: in the store c2store the user u1 is registered
and has a late event on 2026-10-10, so the claimed result set R minus P does
not contain u1; yet the AbsenteeNotifier computation returns u1 as absent for
that date, because it subtracts only users with a present event. Moreover the
markAbsentees computation annotates a registered user without stored name
with Unknown Student, not with Unknown as the claim states. -/
theorem c2_counterexample :
    some "u1" ∈ (fetchAbsentStudents "2026-10-10" c2store).map Prod.fst ∧
    inRegisteredSet c2store (some "u1") ∧
    inPresentSet "2026-10-10" c2store (some "u1") ∧
    (absenteeComputation "2026-10-10" c2store).map (fun a => (a.user_id, storedName a)) =
      [(some "u2", some "Unknown Student")] := by
  decide

/-! ## Notification log finalisation (claim C7) -/

/-- Claim C7, amended: the send-notification edge function stamps its final
log status as sent exactly when at least one channel succeeded, otherwise
failed, and always stamps a completion timestamp; the client
NotificationService.sendAbsenceNotification, by contrast, whenever it finds a
parent contact, writes its single notification log row with status sent and a
sent_at timestamp regardless of the outcome of either channel. -/
theorem c7_amended :
    ∀ (recipient : Recipient) (emailTransportOk : Bool),
      ((sendNotificationHandler recipient emailTransportOk).log.status = "sent" ↔
        ((sendNotificationHandler recipient emailTransportOk).email_sent = true ∨
         (sendNotificationHandler recipient emailTransportOk).sms_sent = true)) ∧
      ((sendNotificationHandler recipient emailTransportOk).log.status = "sent" ∨
       (sendNotificationHandler recipient emailTransportOk).log.status = "failed") ∧
      (sendNotificationHandler recipient emailTransportOk).log.completed_at = true ∧
      ∀ (studentId : String) (pc : NSParentContact) (e s : Bool),
        (sendAbsenceNotificationNS studentId (some pc) e s).log =
          some { parent_contact_id := pc.id, student_id := studentId,
                 notification_type := "absence", status := "sent", sent_at_stamped := true } := by
  intro recipient emailTransportOk
  refine ⟨?_, ?_, ?_, ?_⟩
  · cases he : jsTruthy recipient.email <;> cases ht : emailTransportOk <;>
      cases hp : jsTruthy recipient.phone <;>
      simp [sendNotificationHandler, he, ht, hp]
  · cases he : jsTruthy recipient.email <;> cases ht : emailTransportOk <;>
      cases hp : jsTruthy recipient.phone <;>
      simp [sendNotificationHandler, he, ht, hp]
  · cases he : jsTruthy recipient.email <;> cases ht : emailTransportOk <;>
      cases hp : jsTruthy recipient.phone <;>
      simp [sendNotificationHandler, he, ht, hp]
  · intro studentId pc e s
    rfl

/-- Claim C7, counterexample: a dispatch through the client
NotificationService where the only attempted channel, email, fails, yet the
final notification log row is written with status sent; the claim requires
status failed when no channel succeeded. -/
theorem c7_counterexample :
    (sendAbsenceNotificationNS "s1" (some c7contact) false false).emailAttempts =
      [("parent@example.test", false)] ∧
    (sendAbsenceNotificationNS "s1" (some c7contact) false false).smsAttempts = [] ∧
    (sendAbsenceNotificationNS "s1" (some c7contact) false false).log =
      some { parent_contact_id := "pc1", student_id := "s1",
             notification_type := "absence", status := "sent", sent_at_stamped := true } := by
  refine ⟨rfl, rfl, rfl⟩

/-! ## Email-only contact issues no SMS (claim C8) -/

/-- Claim C8: for a contact whose preferences enable only email and whose
phone number is absent, the composed notification path reports sms_sent
false and attempts no SMS transport call. -/
theorem c8_email_only_no_sms (contact : ParentContact) (emailTransportOk : Bool)
    (_hemail : contact.notification_preferences.email = true)
    (hsms : contact.notification_preferences.sms = false)
    (_hphone : contact.phone = none) :
    (notifyViaEdge contact emailTransportOk).sms_sent = false ∧
    (notifyViaEdge contact emailTransportOk).smsAttempts = [] := by
  unfold notifyViaEdge buildRecipient
  cases he : jsTruthy (if contact.notification_preferences.email then contact.email else none) <;>
    cases ht : emailTransportOk <;>
    simp [sendNotificationHandler, he, ht, hsms, jsTruthy]

/-- Claim C8, witness: the concrete email-only contact with no phone. -/
theorem c8_witness :
    c8contact.notification_preferences.email = true ∧
    c8contact.notification_preferences.sms = false ∧
    c8contact.phone = none ∧
    (notifyViaEdge c8contact true).sms_sent = false ∧
    (notifyViaEdge c8contact true).smsAttempts = [] :=
  ⟨rfl, rfl, rfl, (c8_email_only_no_sms c8contact true rfl rfl rfl).1,
    (c8_email_only_no_sms c8contact true rfl rfl rfl).2⟩

/-! ## Matcher lemmas -/

/-- The candidate loop equals the pair loop over the comparable candidates. -/
theorem foldl_recognitionStep_eq (query : List ℚ) (records : List AttendanceRecord) :
    ∀ acc, records.foldl (recognitionStep query) acc = (validPairs query records).foldl pairStep acc := by
  induction records with
  | nil => intro acc; rfl
  | cons r t ih =>
    intro acc
    rw [List.foldl_cons]
    unfold validPairs
    rw [List.filterMap_cons]
    cases h : candDist query r with
    | none =>
      have hstep : recognitionStep query acc r = acc := by
        unfold recognitionStep; rw [h]
      rw [hstep]
      simpa [validPairs] using ih acc
    | some d =>
      have hstep : recognitionStep query acc r = pairStep acc (r, d) := by
        unfold recognitionStep pairStep; rw [h]
      rw [hstep]
      simpa [validPairs] using ih (pairStep acc (r, d))

theorem foldl_min_le_init (l : List ℚ) : ∀ a : ℚ, l.foldl min a ≤ a := by
  induction l with
  | nil => intro a; exact le_refl a
  | cons d t ih => intro a; exact le_trans (ih (min a d)) (min_le_left a d)

theorem foldl_min_le_mem {d : ℚ} {l : List ℚ} (hd : d ∈ l) : ∀ a : ℚ, l.foldl min a ≤ d := by
  induction l with
  | nil => cases hd
  | cons x t ih =>
    intro a
    rcases List.mem_cons.mp hd with h | h
    · subst h
      exact le_trans (foldl_min_le_init t (min a d)) (min_le_right a d)
    · exact ih h (min a x)

theorem foldl_min_eq_init {l : List ℚ} : ∀ a : ℚ, (∀ d ∈ l, a ≤ d) → l.foldl min a = a := by
  induction l with
  | nil => intro a _; rfl
  | cons x t ih =>
    intro a h
    have hx : min a x = a := min_eq_left (h x (List.mem_cons_self x t))
    rw [List.foldl_cons, hx]
    exact ih a (fun d hd => h d (List.mem_cons_of_mem x hd))

/-- Characterisation of the pair loop: the running distance ends at the
minimum of the seen distances and the initial bound, and the selected
candidate is the first one attaining that minimum when some candidate beats
the initial bound, the initial holder otherwise. -/
theorem pairFold_char (pairs : List (AttendanceRecord × ℚ)) :
    ∀ (b : Option AttendanceRecord) (m : ℚ),
      (pairs.foldl pairStep (b, m)).2 = (pairs.map Prod.snd).foldl min m ∧
      (pairs.foldl pairStep (b, m)).1 =
        (if (pairs.map Prod.snd).any (fun d => decide (d < m)) then
          (pairs.find? (fun p => decide (p.2 = (pairs.map Prod.snd).foldl min m))).map Prod.fst
        else b) := by
  induction pairs with
  | nil =>
    intro b m
    exact ⟨rfl, by simp⟩
  | cons p t ih =>
    intro b m
    rw [List.foldl_cons]
    by_cases hpm : p.2 < m
    · have hstep : pairStep (b, m) p = (some p.1, p.2) := by
        unfold pairStep; rw [if_pos hpm]
      rw [hstep]
      obtain ⟨ih2, ih1⟩ := ih (some p.1) p.2
      have hmin : min m p.2 = p.2 := min_eq_right (le_of_lt hpm)
      have hM : ((p :: t).map Prod.snd).foldl min m = (t.map Prod.snd).foldl min p.2 := by
        rw [List.map_cons, List.foldl_cons, hmin]
      have hany : ((p :: t).map Prod.snd).any (fun d => decide (d < m)) = true := by
        rw [List.map_cons, List.any_cons]
        simp [hpm]
      constructor
      · rw [ih2, hM]
      · rw [ih1, if_pos hany]
        simp only [hM]
        by_cases ht : (t.map Prod.snd).any (fun d => decide (d < p.2)) = true
        · rw [if_pos ht]
          obtain ⟨d, hdm, hdec⟩ := List.any_eq_true.mp ht
          have hdlt : d < p.2 := of_decide_eq_true hdec
          have hMlt : (t.map Prod.snd).foldl min p.2 < p.2 :=
            lt_of_le_of_lt (foldl_min_le_mem hdm p.2) hdlt
          rw [List.find?_cons_of_neg _ (by simpa using hMlt.ne')]
        · rw [if_neg ht]
          have hall : ∀ d ∈ t.map Prod.snd, p.2 ≤ d := by
            intro d hd
            by_contra hc
            exact ht (List.any_eq_true.mpr ⟨d, hd, decide_eq_true (lt_of_not_le hc)⟩)
          have hMeq : (t.map Prod.snd).foldl min p.2 = p.2 := foldl_min_eq_init p.2 hall
          rw [List.find?_cons_of_pos _ (by simp [hMeq])]
          rfl
    · have hstep : pairStep (b, m) p = (b, m) := by
        unfold pairStep; rw [if_neg hpm]
      rw [hstep]
      obtain ⟨ih2, ih1⟩ := ih b m
      have hmin : min m p.2 = m := min_eq_left (le_of_not_lt hpm)
      have hM : ((p :: t).map Prod.snd).foldl min m = (t.map Prod.snd).foldl min m := by
        rw [List.map_cons, List.foldl_cons, hmin]
      have hany : ((p :: t).map Prod.snd).any (fun d => decide (d < m)) =
          (t.map Prod.snd).any (fun d => decide (d < m)) := by
        rw [List.map_cons, List.any_cons]
        simp [hpm]
      constructor
      · rw [ih2, hM]
      · rw [ih1]
        simp only [hany, hM]
        by_cases ht : (t.map Prod.snd).any (fun d => decide (d < m)) = true
        · rw [if_pos ht, if_pos ht]
          obtain ⟨d, hdm, hdec⟩ := List.any_eq_true.mp ht
          have hdlt : d < m := of_decide_eq_true hdec
          have hMlt : (t.map Prod.snd).foldl min m < m :=
            lt_of_le_of_lt (foldl_min_le_mem hdm m) hdlt
          have hple : m ≤ p.2 := le_of_not_lt hpm
          rw [List.find?_cons_of_neg _ (by simpa using (lt_of_lt_of_le hMlt hple).ne')]
        · rw [if_neg ht, if_neg ht]

/-- A mismatched candidate has no observable distance: calculateDistance
throws and the catch skips the candidate. -/
theorem candDist_none_of_mismatch (query : List ℚ) (r : AttendanceRecord)
    (h : dimMismatch query r = true) : candDist query r = none := by
  unfold dimMismatch at h
  unfold candDist
  cases hd : recordDescriptor r with
  | none => rfl
  | some desc =>
    rw [hd] at h
    have hne : query.length ≠ desc.length := by simpa using h
    simp [calculateDistanceSq, hne]

/-- Removing the mismatched candidates leaves the comparable pairs
unchanged. -/
theorem validPairs_filter_mismatch (query : List ℚ) (records : List AttendanceRecord) :
    validPairs query (records.filter (fun r => !(dimMismatch query r))) =
      validPairs query records := by
  induction records with
  | nil => rfl
  | cons r t ih =>
    rw [List.filter_cons]
    by_cases h : dimMismatch query r = true
    · have hc : candDist query r = none := candDist_none_of_mismatch query r h
      simp only [h, Bool.not_true]
      rw [if_neg (by simp)]
      unfold validPairs
      rw [List.filterMap_cons, hc]
      simpa [validPairs] using ih
    · have hb : (!(dimMismatch query r)) = true := by
        simp [Bool.not_eq_true] at h
        simp [h]
      rw [if_pos hb]
      unfold validPairs
      rw [List.filterMap_cons, List.filterMap_cons]
      cases hc : candDist query r with
      | none => simpa [validPairs] using ih
      | some d => simpa [validPairs] using ih

/-! ## Best-match selection (claims C4 and C5) -/

/-- Claim C4: the recognizeFace candidate loop selects exactly as the claim
describes: among the candidates with an observable distance, the minimum
distance wins provided it beats the threshold, a candidate replacing the
running best only on a strictly smaller distance, so ties keep the first-seen
candidate and the result is determined by the candidate ordering. -/
theorem c4_selection_rule (query : List ℚ) (records : List AttendanceRecord) :
    (bestMatchLoop query records).1 = specBestMatch query records distanceThresholdSq := by
  unfold bestMatchLoop specBestMatch
  rw [foldl_recognitionStep_eq]
  exact (pairFold_char (validPairs query records) none distanceThresholdSq).2

/-- Claim C5: candidates whose stored descriptor length differs from the
query are skipped without failing the call: the loop result over any
candidate list equals the result over the list with every mismatched
candidate removed, so the best valid match among the rest is still
returned. -/
theorem c5_mismatch_skipped (query : List ℚ) (records : List AttendanceRecord) :
    bestMatchLoop query records =
      bestMatchLoop query (records.filter (fun r => !(dimMismatch query r))) := by
  unfold bestMatchLoop
  rw [foldl_recognitionStep_eq, foldl_recognitionStep_eq, validPairs_filter_mismatch]

/-! ## recordAttendance lemmas -/

theorem recordAttendanceBody_error_check (input : RecordInput) (today : String)
    (hour minutes : Nat) (behavior : StoreBehavior) (store : List AttendanceRecord)
    (h : ¬ behavior.checkReadOk ∨ 1 < (dedupMatches store input.userId input.status today).length) :
    recordAttendanceBody input today hour minutes behavior store =
      .error "Error checking existing attendance" := by
  unfold recordAttendanceBody
  simp only []
  rw [if_pos h]

theorem recordAttendanceBody_dedup_hit (input : RecordInput) (today : String)
    (hour minutes : Nat) (behavior : StoreBehavior) (store : List AttendanceRecord)
    (h1 : ¬ (¬ behavior.checkReadOk ∨ 1 < (dedupMatches store input.userId input.status today).length))
    (h2 : ¬ (dedupMatches store input.userId input.status today).isEmpty) :
    recordAttendanceBody input today hour minutes behavior store =
      .ok { ok := true, store := store, notified := none } := by
  unfold recordAttendanceBody
  simp only []
  rw [if_neg h1, if_pos h2]

theorem recordAttendanceBody_insert_error (input : RecordInput) (today : String)
    (hour minutes : Nat) (behavior : StoreBehavior) (store : List AttendanceRecord)
    (h1 : ¬ (¬ behavior.checkReadOk ∨ 1 < (dedupMatches store input.userId input.status today).length))
    (h2 : (dedupMatches store input.userId input.status today).isEmpty)
    (h3 : ¬ behavior.insertOk) :
    recordAttendanceBody input today hour minutes behavior store =
      .error "Error recording attendance" := by
  unfold recordAttendanceBody
  simp only []
  rw [if_neg h1, if_neg (by simpa using h2), if_pos h3]

theorem recordAttendanceBody_insert_ok (input : RecordInput) (today : String)
    (hour minutes : Nat) (behavior : StoreBehavior) (store : List AttendanceRecord)
    (h1 : ¬ (¬ behavior.checkReadOk ∨ 1 < (dedupMatches store input.userId input.status today).length))
    (h2 : (dedupMatches store input.userId input.status today).isEmpty)
    (h3 : ¬ ¬ behavior.insertOk) :
    ∃ n, recordAttendanceBody input today hour minutes behavior store =
      .ok { ok := true, store := store ++ [newAttendanceRecord input today], notified := n } := by
  unfold recordAttendanceBody
  simp only []
  rw [if_neg h1, if_neg (by simpa using h2), if_neg h3]
  split
  · split
    · split
      · exact ⟨_, rfl⟩
      · exact ⟨none, rfl⟩
    · exact ⟨none, rfl⟩
  · exact ⟨none, rfl⟩

theorem dedupMatches_append (s t : List AttendanceRecord) (u status d : String) :
    dedupMatches (s ++ t) u status d = dedupMatches s u status d ++ dedupMatches t u status d := by
  unfold dedupMatches
  exact List.filter_append _ _

theorem dedupMatches_new (input : RecordInput) (today : String) :
    dedupMatches [newAttendanceRecord input today] input.userId input.status today =
      [newAttendanceRecord input today] := by
  simp [dedupMatches, newAttendanceRecord]

/-- Full characterisation of recordAttendance at its public interface: the
returned Boolean is true unless the dedup read failed, matched more than one
row, or the insert was needed and failed; the store gains exactly the one new
record when the insert path runs and is untouched otherwise; and the body
raises exactly when the returned Boolean is false. -/
theorem recordAttendance_char (input : RecordInput) (today : String) (hour minutes : Nat)
    (behavior : StoreBehavior) (store : List AttendanceRecord) :
    ((recordAttendance input today hour minutes behavior store).ok = true ↔
      (behavior.checkReadOk = true ∧
       (dedupMatches store input.userId input.status today).length ≤ 1 ∧
       (dedupMatches store input.userId input.status today ≠ [] ∨ behavior.insertOk = true))) ∧
    (recordAttendance input today hour minutes behavior store).store =
      (if behavior.checkReadOk = true ∧
          dedupMatches store input.userId input.status today = [] ∧
          behavior.insertOk = true
       then store ++ [newAttendanceRecord input today] else store) ∧
    (recordAttendanceBody input today hour minutes behavior store).isOk =
      (recordAttendance input today hour minutes behavior store).ok := by
  by_cases hc : behavior.checkReadOk = true
  · by_cases hlen : 1 < (dedupMatches store input.userId input.status today).length
    · have hb := recordAttendanceBody_error_check input today hour minutes behavior store
        (Or.inr hlen)
      have hra : recordAttendance input today hour minutes behavior store =
          { ok := false, store := store, notified := none } := by
        unfold recordAttendance; rw [hb]
      refine ⟨?_, ?_, ?_⟩
      · rw [hra]
        simp only [Bool.false_eq_true, false_iff]
        rintro ⟨_, hle, _⟩
        omega
      · rw [hra]
        rw [if_neg]
        rintro ⟨_, hnil, _⟩
        rw [hnil] at hlen
        simp at hlen
      · rw [hra, hb]
        rfl
    · have hlen' : (dedupMatches store input.userId input.status today).length ≤ 1 :=
        Nat.le_of_not_lt hlen
      have h1 : ¬ (¬ behavior.checkReadOk ∨
          1 < (dedupMatches store input.userId input.status today).length) := by
        rintro (h | h)
        · exact h hc
        · exact hlen h
      by_cases hnil : dedupMatches store input.userId input.status today = []
      · by_cases hi : behavior.insertOk = true
        · obtain ⟨n, hb⟩ := recordAttendanceBody_insert_ok input today hour minutes behavior store
            h1 (by simp [hnil]) (fun h => h hi)
          have hra : recordAttendance input today hour minutes behavior store =
              { ok := true, store := store ++ [newAttendanceRecord input today],
                notified := n } := by
            unfold recordAttendance; rw [hb]
          refine ⟨?_, ?_, ?_⟩
          · rw [hra]
            simp only [true_iff]
            exact ⟨hc, hlen', Or.inr hi⟩
          · rw [hra, if_pos ⟨hc, hnil, hi⟩]
          · rw [hra, hb]
            rfl
        · have hb := recordAttendanceBody_insert_error input today hour minutes behavior store
            h1 (by simp [hnil]) hi
          have hra : recordAttendance input today hour minutes behavior store =
              { ok := false, store := store, notified := none } := by
            unfold recordAttendance; rw [hb]
          refine ⟨?_, ?_, ?_⟩
          · rw [hra]
            simp only [Bool.false_eq_true, false_iff]
            rintro ⟨_, _, h | h⟩
            · exact h hnil
            · exact hi h
          · rw [hra, if_neg]
            rintro ⟨_, _, h⟩
            exact hi h
          · rw [hra, hb]
            rfl
      · have hne : ¬ (dedupMatches store input.userId input.status today).isEmpty := by
          simpa [List.isEmpty_iff] using hnil
        have hb := recordAttendanceBody_dedup_hit input today hour minutes behavior store h1 hne
        have hra : recordAttendance input today hour minutes behavior store =
            { ok := true, store := store, notified := none } := by
          unfold recordAttendance; rw [hb]
        refine ⟨?_, ?_, ?_⟩
        · rw [hra]
          simp only [true_iff]
          exact ⟨hc, hlen', Or.inl hnil⟩
        · rw [hra, if_neg]
          rintro ⟨_, h, _⟩
          exact hnil h
        · rw [hra, hb]
          rfl
  · have hb := recordAttendanceBody_error_check input today hour minutes behavior store
      (Or.inl hc)
    have hra : recordAttendance input today hour minutes behavior store =
        { ok := false, store := store, notified := none } := by
      unfold recordAttendance; rw [hb]
    refine ⟨?_, ?_, ?_⟩
    · rw [hra]
      simp only [Bool.false_eq_true, false_iff]
      rintro ⟨h, _, _⟩
      exact hc h
    · rw [hra, if_neg]
      rintro ⟨h, _, _⟩
      exact hc h
    · rw [hra, hb]
      rfl

/-! ## recordAttendance totality (claim C10) -/

/-- Claim C10: recordAttendance is total at its public interface: for every
input and every collaborator behaviour the body raises exactly when the call
returns false (the outer catch converts every raise, so no exception ever
propagates), the call returns false precisely when the dedup read fails,
matches more than one row, or a needed insert fails, it returns true
otherwise, and whenever it returns false the store is exactly as the call
found it. -/
theorem c10_total_interface (input : RecordInput) (today : String) (hour minutes : Nat)
    (behavior : StoreBehavior) (store : List AttendanceRecord) :
    ((recordAttendance input today hour minutes behavior store).ok = true ↔
      (behavior.checkReadOk = true ∧
       (dedupMatches store input.userId input.status today).length ≤ 1 ∧
       (dedupMatches store input.userId input.status today ≠ [] ∨ behavior.insertOk = true))) ∧
    (recordAttendance input today hour minutes behavior store).store =
      (if behavior.checkReadOk = true ∧
          dedupMatches store input.userId input.status today = [] ∧
          behavior.insertOk = true
       then store ++ [newAttendanceRecord input today] else store) ∧
    (recordAttendanceBody input today hour minutes behavior store).isOk =
      (recordAttendance input today hour minutes behavior store).ok :=
  recordAttendance_char input today hour minutes behavior store

/-! ## Same-day dedup (claim C3) -/

/-- Claim C3: recording presence twice for the same user on the same calendar
day, the second call observing the store left by the first, stores exactly
one present event for that user and day: the first call succeeds and writes
it, the second call succeeds without writing. -/
theorem c3_same_day_dedup (input : RecordInput) (today : String) (h1 m1 h2 m2 : Nat)
    (b1 b2 : StoreBehavior) (store : List AttendanceRecord)
    (_hstatus : input.status = "present")
    (hb1c : b1.checkReadOk = true) (hb1i : b1.insertOk = true)
    (hb2c : b2.checkReadOk = true)
    (hstore : dedupMatches store input.userId input.status today = []) :
    (recordAttendance input today h1 m1 b1 store).ok = true ∧
    (recordAttendance input today h2 m2 b2
      (recordAttendance input today h1 m1 b1 store).store).ok = true ∧
    (recordAttendance input today h2 m2 b2
        (recordAttendance input today h1 m1 b1 store).store).store =
      (recordAttendance input today h1 m1 b1 store).store ∧
    (dedupMatches (recordAttendance input today h2 m2 b2
        (recordAttendance input today h1 m1 b1 store).store).store
      input.userId input.status today).length = 1 := by
  obtain ⟨hok1, hst1, _⟩ := recordAttendance_char input today h1 m1 b1 store
  have hstore1 : (recordAttendance input today h1 m1 b1 store).store =
      store ++ [newAttendanceRecord input today] := by
    rw [hst1, if_pos ⟨hb1c, hstore, hb1i⟩]
  have hdedup1 : dedupMatches (recordAttendance input today h1 m1 b1 store).store
      input.userId input.status today = [newAttendanceRecord input today] := by
    rw [hstore1, dedupMatches_append, hstore, dedupMatches_new, List.nil_append]
  obtain ⟨hok2, hst2, _⟩ := recordAttendance_char input today h2 m2 b2
    (recordAttendance input today h1 m1 b1 store).store
  have hgoal1 : (recordAttendance input today h1 m1 b1 store).ok = true :=
    hok1.mpr ⟨hb1c, by rw [hstore]; simp, Or.inr hb1i⟩
  have hgoal2 : (recordAttendance input today h2 m2 b2
      (recordAttendance input today h1 m1 b1 store).store).ok = true :=
    hok2.mpr ⟨hb2c, by rw [hdedup1]; simp, Or.inl (by rw [hdedup1]; simp)⟩
  have hgoal3 : (recordAttendance input today h2 m2 b2
      (recordAttendance input today h1 m1 b1 store).store).store =
      (recordAttendance input today h1 m1 b1 store).store := by
    rw [hst2, if_neg]
    rintro ⟨_, hnil, _⟩
    rw [hdedup1] at hnil
    simp at hnil
  refine ⟨hgoal1, hgoal2, hgoal3, ?_⟩
  rw [hgoal3, hdedup1]
  rfl

/-- Claim C3, witness: two present recordings for user u1 on 2026-10-11
starting from an empty store. -/
theorem c3_witness :
    (recordAttendance presentInputU1 "2026-10-11" 8 0 allOkBehavior []).ok = true ∧
    (recordAttendance presentInputU1 "2026-10-11" 9 0 allOkBehavior
      (recordAttendance presentInputU1 "2026-10-11" 8 0 allOkBehavior []).store).ok = true ∧
    (recordAttendance presentInputU1 "2026-10-11" 9 0 allOkBehavior
        (recordAttendance presentInputU1 "2026-10-11" 8 0 allOkBehavior []).store).store =
      (recordAttendance presentInputU1 "2026-10-11" 8 0 allOkBehavior []).store ∧
    (dedupMatches (recordAttendance presentInputU1 "2026-10-11" 9 0 allOkBehavior
        (recordAttendance presentInputU1 "2026-10-11" 8 0 allOkBehavior []).store).store
      presentInputU1.userId presentInputU1.status "2026-10-11").length = 1 :=
  c3_same_day_dedup presentInputU1 "2026-10-11" 8 0 9 0 allOkBehavior allOkBehavior []
    rfl rfl rfl rfl rfl

/-! ## Notification failure does not fail the write (claim C9) -/

/-- Claim C9: when a successful present recording is late and triggers the
notification, a notification failure, whether a throw or a false return, does
not fail the attendance write: the call still returns true, the inserted
event stays in the store, and the notification was indeed attempted with the
failing outcome. -/
theorem c9_notify_failure_kept_write (input : RecordInput) (today : String)
    (hour minutes : Nat) (behavior : StoreBehavior) (store : List AttendanceRecord)
    (hstatus : input.status = "present")
    (hc : behavior.checkReadOk = true) (hi : behavior.insertOk = true)
    (hr : behavior.regReadOk = true)
    (_hfail : (∃ msg, behavior.notifyOutcome = NotifyOutcome.threw msg) ∨
      behavior.notifyOutcome = NotifyOutcome.returned false)
    (hdedup : dedupMatches store input.userId input.status today = [])
    (hlate : isLate hour minutes = true)
    (hreg : (registrationMatches (store ++ [newAttendanceRecord input today])
      input.userId).length = 1) :
    ∃ studentName,
      recordAttendance input today hour minutes behavior store =
        { ok := true
          store := store ++ [newAttendanceRecord input today]
          notified := some (studentName, behavior.notifyOutcome) } := by
  have h1 : ¬ (¬ behavior.checkReadOk ∨
      1 < (dedupMatches store input.userId input.status today).length) := by
    rintro (h | h)
    · exact h hc
    · rw [hdedup] at h
      simp at h
  unfold recordAttendance recordAttendanceBody
  simp only []
  rw [if_neg h1, if_neg (by simp [hdedup]), if_neg (fun h => h hi), hstatus]
  rw [if_pos (by simp)]
  rw [if_pos (by simp [hr, hreg])]
  rw [if_pos hlate]
  exact ⟨_, rfl⟩

/-- Claim C9, witness: a late present recording for user u1 whose
notification call throws; the write stays and the call returns true. -/
theorem c9_witness :
    ∃ studentName,
      recordAttendance presentInputU1 "2026-10-11" 10 0 notifyThrowBehavior [regAlice] =
        { ok := true
          store := [regAlice] ++ [newAttendanceRecord presentInputU1 "2026-10-11"]
          notified := some (studentName, notifyThrowBehavior.notifyOutcome) } :=
  c9_notify_failure_kept_write presentInputU1 "2026-10-11" 10 0 notifyThrowBehavior [regAlice]
    rfl rfl rfl rfl (Or.inl ⟨"notification transport down", rfl⟩) rfl (by decide) (by decide)

/-! ## markAbsentees lemmas -/

theorem absentee_filter_registered (d : String) (l : List AttendanceRecord) :
    (l.map (absenteeRecord d)).filter (fun r => r.status == "registered") = [] := by
  induction l with
  | nil => rfl
  | cons r t ih =>
    rw [List.map_cons, List.filter_cons]
    have h : ((absenteeRecord d r).status == "registered") = false := rfl
    rw [h]
    simpa using ih

theorem presentIdsFor_append (d : String) (s t : List AttendanceRecord) :
    presentIdsFor d (s ++ t) = presentIdsFor d s ++ presentIdsFor d t := by
  unfold presentIdsFor
  rw [List.filter_append, List.map_append]

/-- After one markAbsentees run, the not-yet-marked absentee computation for
the same date is empty: every registered user either already had a day event
or just received the inserted absent record. -/
theorem absenteeComputation_after (d : String) (s : List AttendanceRecord) :
    absenteeComputation d (s ++ absenteeComputation d s) = [] := by
  have hreg : registeredRecords (s ++ absenteeComputation d s) = registeredRecords s := by
    unfold registeredRecords
    rw [List.filter_append]
    have h2 : (absenteeComputation d s).filter (fun r => r.status == "registered") = [] := by
      unfold absenteeComputation
      exact absentee_filter_registered d _
    unfold registeredRecords at h2
    rw [h2, List.append_nil]
  show ((registeredRecords (s ++ absenteeComputation d s)).filter
      (fun r => !(decide (r.user_id ∈
        presentIdsFor d (s ++ absenteeComputation d s))))).map (absenteeRecord d) = []
  rw [hreg]
  have hfe : (registeredRecords s).filter
      (fun r => !(decide (r.user_id ∈ presentIdsFor d (s ++ absenteeComputation d s)))) = [] := by
    rw [List.filter_eq_nil_iff]
    intro r hr
    simp only [Bool.not_eq_true', decide_eq_false_iff_not, not_not]
    rw [presentIdsFor_append, List.mem_append]
    by_cases hp : r.user_id ∈ presentIdsFor d s
    · exact Or.inl hp
    · right
      have hmem : absenteeRecord d r ∈ absenteeComputation d s := by
        apply List.mem_map.mpr
        refine ⟨r, ?_, rfl⟩
        apply List.mem_filter.mpr
        exact ⟨hr, by simp [hp]⟩
      unfold presentIdsFor
      apply List.mem_map.mpr
      refine ⟨absenteeRecord d r, ?_, rfl⟩
      apply List.mem_filter.mpr
      refine ⟨hmem, ?_⟩
      have hd : ((absenteeRecord d r).date == d) = true := by
        simp [absenteeRecord]
      have hs : isPresentish (absenteeRecord d r).status = true := rfl
      rw [Bool.and_eq_true]
      exact ⟨hd, hs⟩
  rw [hfe]
  rfl

/-! ## markAbsentees idempotence (claim C6) -/

/-- Claim C6: markAbsentees is idempotent: a second run for the same date on
the store left by the first run inserts zero records and leaves the store
unchanged, because the absent records inserted by the first run are part of
the day set of the second run; and each run reports exactly the number of
records it appended to the store. -/
theorem c6_markAbsentees_idempotent (date : String) (store : List AttendanceRecord) :
    markAbsentees date (markAbsentees date store).2 = (0, (markAbsentees date store).2) ∧
    (markAbsentees date store).1 = (markAbsentees date store).2.length - store.length := by
  constructor
  · have h := absenteeComputation_after date store
    unfold markAbsentees
    simp only []
    rw [h]
    simp
  · unfold markAbsentees
    simp

/-! ## Absentee computation (claim C2, amended) -/

theorem mem_presentIdsFor (d : String) (s : List AttendanceRecord) (u : Option String) :
    u ∈ presentIdsFor d s ↔ inPresentSet d s u := by
  unfold presentIdsFor inPresentSet
  simp only [List.mem_map, List.mem_filter, Bool.and_eq_true, beq_iff_eq,
    isPresentish, Bool.or_eq_true]
  constructor
  · rintro ⟨r, ⟨hrs, hd, hstat⟩, huid⟩
    exact ⟨r, hrs, hd, by tauto, huid⟩
  · rintro ⟨r, hrs, hd, hstat, huid⟩
    exact ⟨r, ⟨hrs, hd, by tauto⟩, huid⟩

theorem mem_presentOnlyIds (d : String) (s : List AttendanceRecord) (u : Option String) :
    u ∈ presentOnlyIds d s ↔
      ∃ r ∈ s, r.status = "present" ∧ r.date = d ∧ r.user_id = u := by
  unfold presentOnlyIds
  simp only [List.mem_map, List.mem_filter, Bool.and_eq_true, beq_iff_eq]
  constructor
  · rintro ⟨r, ⟨hrs, hstat, hd⟩, huid⟩
    exact ⟨r, hrs, hstat, hd, huid⟩
  · rintro ⟨r, hrs, hstat, hd, huid⟩
    exact ⟨r, ⟨hrs, hstat, hd⟩, huid⟩

/-- Claim C2, amended: the markAbsentees computation returns exactly the set
R minus P of the claim, R being the user ids with a registered record and P
the user ids with any present, late or absent event on the date, but it
annotates each absentee with the registration record name defaulting to
Unknown Student, not Unknown; whereas the AbsenteeNotifier component
computes its absentees from the records flagged registration true and
subtracts only the users with a present event on the date, late and absent
events not counting, with names defaulting to Unknown. -/
theorem c2_amended (date : String) (store : List AttendanceRecord) :
    (∀ u : Option String,
      u ∈ (absenteeComputation date store).map (fun a => a.user_id) ↔
        (inRegisteredSet store u ∧ ¬ inPresentSet date store u)) ∧
    (∀ a ∈ absenteeComputation date store,
      ∃ r ∈ store, r.status = "registered" ∧ r.user_id = a.user_id ∧
        storedName a = some (nameOrDefault r.device_info "Unknown Student")) ∧
    (∀ p : Option String × String,
      p ∈ fetchAbsentStudents date store ↔
        ∃ r ∈ store, registrationFlag r.device_info = true ∧
          p = (r.user_id, nameOrDefault r.device_info "Unknown") ∧
          ¬ ∃ r2 ∈ store, r2.status = "present" ∧ r2.date = date ∧
            r2.user_id = r.user_id) := by
  refine ⟨?_, ?_, ?_⟩
  · intro u
    constructor
    · intro hu
      obtain ⟨a, ha, hau⟩ := List.mem_map.mp hu
      obtain ⟨r, hrf, hra⟩ := List.mem_map.mp ha
      obtain ⟨hrreg, hrpred⟩ := List.mem_filter.mp hrf
      obtain ⟨hrs, hrstat⟩ := List.mem_filter.mp hrreg
      have huid : r.user_id = u := by
        rw [← hra] at hau
        simpa [absenteeRecord] using hau
      refine ⟨⟨r, hrs, by simpa using hrstat, huid⟩, ?_⟩
      intro hP
      have hmem : r.user_id ∈ presentIdsFor date store :=
        (mem_presentIdsFor date store r.user_id).mpr (by rw [huid]; exact hP)
      simp [hmem] at hrpred
    · rintro ⟨⟨r, hrs, hstat, huid⟩, hnp⟩
      apply List.mem_map.mpr
      refine ⟨absenteeRecord date r, ?_, by simpa [absenteeRecord] using huid⟩
      apply List.mem_map.mpr
      refine ⟨r, ?_, rfl⟩
      apply List.mem_filter.mpr
      refine ⟨List.mem_filter.mpr ⟨hrs, by simp [hstat]⟩, ?_⟩
      simp only [Bool.not_eq_true', decide_eq_false_iff_not]
      intro hmem
      exact hnp ((mem_presentIdsFor date store u).mp (by rw [← huid]; exact hmem))
  · intro a ha
    obtain ⟨r, hrf, hra⟩ := List.mem_map.mp ha
    obtain ⟨hrreg, _⟩ := List.mem_filter.mp hrf
    obtain ⟨hrs, hrstat⟩ := List.mem_filter.mp hrreg
    refine ⟨r, hrs, by simpa using hrstat, ?_, ?_⟩
    · rw [← hra]
      rfl
    · rw [← hra]
      rfl
  · intro p
    unfold fetchAbsentStudents
    simp only [List.mem_filter, List.mem_map, Bool.not_eq_true', decide_eq_false_iff_not]
    constructor
    · rintro ⟨⟨r, ⟨hrs, hflag⟩, hpg⟩, hnp⟩
      refine ⟨r, hrs, hflag, hpg.symm, ?_⟩
      intro hex
      apply hnp
      rw [← hpg]
      exact (mem_presentOnlyIds date store r.user_id).mpr
        (by obtain ⟨r2, h2s, h2st, h2d, h2u⟩ := hex; exact ⟨r2, h2s, h2st, h2d, h2u⟩)
    · rintro ⟨r, hrs, hflag, hpg, hnp⟩
      refine ⟨⟨r, ⟨hrs, hflag⟩, hpg.symm⟩, ?_⟩
      intro hmem
      apply hnp
      rw [hpg] at hmem
      obtain ⟨r2, h2s, h2st, h2d, h2u⟩ := (mem_presentOnlyIds date store r.user_id).mp hmem
      exact ⟨r2, h2s, h2st, h2d, h2u⟩

/-- Claim C2, witness for the amended theorem: in the concrete store the
computed absentee record for user u2 carries the name Unknown Student taken
as the default for its registration record. -/
theorem c2_amended_witness :
    ∃ r ∈ c2store, r.status = "registered" ∧
      r.user_id = (absenteeRecord "2026-10-10" regNoName).user_id ∧
      storedName (absenteeRecord "2026-10-10" regNoName) =
        some (nameOrDefault r.device_info "Unknown Student") :=
  (c2_amended "2026-10-10" c2store).2.1 (absenteeRecord "2026-10-10" regNoName) (by decide)
